import Mathlib

/-!
Verification development for the phone-input component
(src/ember-phone-input/src/components/phone-input.ts).

The component wraps the external intl-tel-input plugin.  We give a shallow
embedding of the component: JavaScript values relevant to the runtime
assertions are modelled by `JSVal`, the external plugin handle by an
explicit record `Plugin` whose API calls are logged into a trace, and the
asynchronous `loadAndSetup` method by a pure function over an environment
describing the outcome of the awaited load, whether the component was
destroyed while the load was in flight, and what the plugin factory does.
-/

/-- JavaScript runtime values, as far as the constructor assertions can
observe them: strings, numbers, booleans, null and undefined. -/
inductive JSVal
  | str (s : String)
  | num (n : Int)
  | bool (b : Bool)
  | jsNull
  | undef
deriving DecidableEq, Repr

/-- JavaScript truthiness: empty string, 0, false, null and undefined are
falsy, everything else truthy. -/
def JSVal.truthy : JSVal → Bool
  | .str s => !(s == "")
  | .num n => !(n == 0)
  | .bool b => b
  | .jsNull => false
  | .undef => false

/-- The JavaScript typeof operator on the modelled values. -/
def JSVal.typeof : JSVal → String
  | .str _ => "string"
  | .num _ => "number"
  | .bool _ => "boolean"
  | .jsNull => "object"
  | .undef => "undefined"

/-- The four format kinds of intlTelInputUtils.numberFormat used by
metaData. -/
inductive NumberFormatKind
  | E164
  | INTERNATIONAL
  | NATIONAL
  | RFC3966
deriving DecidableEq, Repr

/-- Country data returned by the plugin getSelectedCountryData call. -/
structure CountryData where
  iso2 : Option String
  name : String
deriving DecidableEq, Repr

/-- The external intl-tel-input plugin handle.  Its getters are modelled
as oracle fields (the wrapped library owns all parsing and formatting
logic); its setters update the stored number and selected country. -/
structure Plugin where
  storedNumber : String
  selectedCountry : String
  extension : String
  selectedCountryData : CountryData
  valid : Bool
  fmtNumber : NumberFormatKind → String

def Plugin.getExtension (p : Plugin) : String := p.extension

def Plugin.getSelectedCountryData (p : Plugin) : CountryData :=
  p.selectedCountryData

def Plugin.isValidNumber (p : Plugin) : Bool := p.valid

def Plugin.getNumber (p : Plugin) (k : NumberFormatKind) : String :=
  p.fmtNumber k

def Plugin.setNumber (p : Plugin) (n : String) : Plugin :=
  { p with storedNumber := n }

def Plugin.setCountry (p : Plugin) (c : String) : Plugin :=
  { p with selectedCountry := c }

/-- One call made on the plugin handle, recorded in traces. -/
inductive PluginCall
  | getExtension
  | getSelectedCountryData
  | isValidNumber
  | getNumber (k : NumberFormatKind)
  | setNumber (n : String)
  | setCountry (c : String)
  | destroy
deriving DecidableEq, Repr

/-- The numberFormat bundle of MetaData: exactly the four formatted
representations. -/
structure NumberFormatObj where
  E164 : String
  INTERNATIONAL : String
  NATIONAL : String
  RFC3966 : String
deriving DecidableEq, Repr

/-- A MetaData object as it exists at runtime: every field may be absent,
since the code returns an empty object cast to MetaData when no plugin
exists.  The numberFormat field, when present, is either null or the
format bundle. -/
structure MetaDataObj where
  extension : Option String
  selectedCountryData : Option CountryData
  isValidNumber : Option Bool
  numberFormat : Option (Option NumberFormatObj)
deriving DecidableEq, Repr

/-- The empty object produced by the no-plugin branch of metaData. -/
def emptyMetaData : MetaDataObj :=
  { extension := none
    selectedCountryData := none
    isValidNumber := none
    numberFormat := none }

/-- What a JavaScript function typed as returning MetaData could return
at runtime: an object, null, or undefined.  The metaData contract is that
it always returns an object. -/
inductive MetaDataResult
  | object (m : MetaDataObj)
  | nullish
  | undefinedVal
deriving DecidableEq, Repr

/-- The metaData method (phone-input.ts lines 350 to 385), paired with
the trace of calls it makes on the plugin.  With no plugin it returns the
empty object.  With a plugin it reads extension, country data and
validity, computes all four formatted representations unconditionally,
and then includes them in numberFormat only when the number is valid. -/
def metaData (intlTelInputPlugin : Option Plugin) :
    MetaDataResult × List PluginCall :=
  match intlTelInputPlugin with
  | none =>
    -- Libraries may rely on always receiving an object
    (.object emptyMetaData, [])
  | some plugin =>
    let extension := plugin.getExtension
    let selectedCountryData := plugin.getSelectedCountryData
    let isValidNumber := plugin.isValidNumber
    let E164 := plugin.getNumber NumberFormatKind.E164
    let INTERNATIONAL := plugin.getNumber NumberFormatKind.INTERNATIONAL
    let NATIONAL := plugin.getNumber NumberFormatKind.NATIONAL
    let RFC3966 := plugin.getNumber NumberFormatKind.RFC3966
    (.object
      { extension := some extension
        selectedCountryData := some selectedCountryData
        isValidNumber := some isValidNumber
        numberFormat := some
          (if isValidNumber then
            some
              { E164 := E164
                INTERNATIONAL := INTERNATIONAL
                NATIONAL := NATIONAL
                RFC3966 := RFC3966 }
          else none) },
     [PluginCall.getExtension,
      PluginCall.getSelectedCountryData,
      PluginCall.isValidNumber,
      PluginCall.getNumber NumberFormatKind.E164,
      PluginCall.getNumber NumberFormatKind.INTERNATIONAL,
      PluginCall.getNumber NumberFormatKind.NATIONAL,
      PluginCall.getNumber NumberFormatKind.RFC3966])

/-! ### Constructor and its runtime assertions -/

/-- The arguments a (possibly untyped JavaScript) caller can pass for the
two fields the constructor validates. -/
structure CtorArgs where
  autoPlaceholder : JSVal
  customPlaceholder : JSVal
deriving DecidableEq, Repr

/-- The customPlaceholder getter (lines 190 to 192):
this.args.customPlaceholder or null. -/
def customPlaceholderGet (a : CtorArgs) : JSVal :=
  if a.customPlaceholder.truthy then a.customPlaceholder else JSVal.jsNull

/-- The autoPlaceholder getter (lines 180 to 182):
this.args.autoPlaceholder or the string polite. -/
def autoPlaceholderGet (a : CtorArgs) : JSVal :=
  if a.autoPlaceholder.truthy then a.autoPlaceholder else JSVal.str "polite"

/-- Component state relevant to the lifecycle claims. -/
structure ComponentState where
  isLoadingIntlTelInput : Bool
  isDestroying : Bool
  isDestroyed : Bool
  intlTelInputInstance : Option Plugin

/-- The state a freshly constructed component starts in. -/
def initialState : ComponentState :=
  { isLoadingIntlTelInput := false
    isDestroying := false
    isDestroyed := false
    intlTelInputInstance := none }

/-- The constructor (lines 76 to 109): checks that a truthy
customPlaceholder is of type string, then that the autoPlaceholder getter
value is one of polite, aggressive, off or undefined; an assert failure
throws. -/
def constructorRun (a : CtorArgs) : Except String ComponentState :=
  if customPlaceholderGet a |>.truthy then
    if (customPlaceholderGet a).typeof == "string" then
      if autoPlaceholderGet a ∈
          [JSVal.str "polite", JSVal.str "aggressive", JSVal.str "off",
           JSVal.undef] then
        .ok initialState
      else
        .error "autoPlaceholder possible values are polite, aggressive and off"
    else
      .error "customPlaceholder must be of type string"
  else
    if autoPlaceholderGet a ∈
        [JSVal.str "polite", JSVal.str "aggressive", JSVal.str "off",
         JSVal.undef] then
      .ok initialState
    else
      .error "autoPlaceholder possible values are polite, aggressive and off"

/-! ### Lifecycle: arguments, getters, element listeners, effects -/

/-- The component arguments used by the lifecycle methods.  A number or
country of none models null or an absent argument; onErrorPresent records
whether the optional onError handler was supplied. -/
structure Args where
  number : Option String
  country : Option String
  initialCountry : Option String
  onErrorPresent : Bool

/-- The number getter (lines 129 to 131): this.args.number or null.  The
empty string is falsy in JavaScript, so it also collapses to null. -/
def numberGet (a : Args) : Option String :=
  match a.number with
  | some s => if s == "" then none else some s
  | none => none

/-- The country getter (lines 119 to 121): this.args.country or the empty
string. -/
def countryGet (a : Args) : String :=
  match a.country with
  | some s => s
  | none => ""

/-- The initialCountry getter (lines 200 to 202): this.args.initialCountry
or the empty string. -/
def initialCountryGet (a : Args) : String :=
  match a.initialCountry with
  | some s => s
  | none => ""

/-- Identity of a countrychange listener function.  Calling bind on the
onCountryChange method produces a fresh function object, distinct from
the bare method reference, which is what DOM listener removal compares
by. -/
inductive ListenerRef
  | boundOnCountryChange
  | onCountryChangeMethod
deriving DecidableEq, Repr

/-- The countrychange listeners currently registered on the input
element. -/
structure ElementState where
  listeners : List ListenerRef
deriving DecidableEq, Repr

def emptyElement : ElementState := { listeners := [] }

/-- DOM addEventListener: registering the same function reference twice
is a no-op, otherwise the listener is appended. -/
def addEventListener (el : ElementState) (f : ListenerRef) : ElementState :=
  if el.listeners.contains f then el
  else { listeners := el.listeners ++ [f] }

/-- DOM removeEventListener: removes exactly the registrations whose
function reference equals the argument; unregistered references are
ignored. -/
def removeEventListener (el : ElementState) (f : ListenerRef) : ElementState :=
  { listeners := el.listeners.filter (fun g => !(g == f)) }

/-- Errors raised by the load or by plugin construction; the payload is
abstract. -/
def JsError := String
deriving instance DecidableEq, Repr for JsError

/-- Observable effects of the lifecycle methods, in order of
occurrence. -/
inductive Effect
  | loadCalled
  | pluginConstructed
  | call (c : PluginCall)
  | listenerAdded
  | updateCalled (number : Option String) (meta : MetaDataResult)
  | onErrorCalled (e : JsError)
deriving DecidableEq, Repr

/-- The environment of one loadAndSetup run: how the awaited load
settles, whether the component is destroyed while the load is in flight,
whether the loader exposed the intlTelInput factory, and what the factory
returns or throws. -/
structure Env where
  loadResult : Except JsError Unit
  destroyedDuringAwait : Bool
  intlTelInputAvailable : Bool
  constructResult : Except JsError Plugin

/-- The setupLibrary method (lines 304 to 348): returns early if the
loader has no factory; otherwise constructs the plugin, applies the
number if present, stores the instance, applies the initial country if
present, and emits the initial update with freshly computed metadata.
A throw from the factory escapes to the caller. -/
def setupLibrary (a : Args) (env : Env) (s : ComponentState) :
    Except JsError (ComponentState × List Effect) :=
  if !env.intlTelInputAvailable then
    .ok (s, [])
  else
    match env.constructResult with
    | .error e => .error e
    | .ok plugin0 =>
      let (plugin1, numberCalls) :=
        match numberGet a with
        | some n => (plugin0.setNumber n, [PluginCall.setNumber n])
        | none => (plugin0, [])
      let (plugin2, countryCalls) :=
        if initialCountryGet a != "" then
          (plugin1.setCountry (initialCountryGet a),
           [PluginCall.setCountry (initialCountryGet a)])
        else (plugin1, [])
      let s := { s with intlTelInputInstance := some plugin2 }
      let (meta, metaCalls) := metaData (some plugin2)
      .ok (s,
        [Effect.pluginConstructed]
          ++ numberCalls.map Effect.call
          ++ countryCalls.map Effect.call
          ++ metaCalls.map Effect.call
          ++ [Effect.updateCalled (numberGet a) meta])

/-- The formatNumber method (lines 290 to 302): no-op without a plugin
instance; otherwise applies the country getter value when non-empty and
the number getter value when present. -/
def formatNumber (a : Args) (s : ComponentState) :
    ComponentState × List PluginCall :=
  match s.intlTelInputInstance with
  | none => (s, [])
  | some plugin =>
    let (plugin, countryCalls) :=
      if countryGet a != "" then
        (plugin.setCountry (countryGet a),
         [PluginCall.setCountry (countryGet a)])
      else (plugin, [])
    let (plugin, allCalls) :=
      match numberGet a with
      | some n => (plugin.setNumber n, countryCalls ++ [PluginCall.setNumber n])
      | none => (plugin, countryCalls)
    ({ s with intlTelInputInstance := some plugin }, allCalls)

/-- Result of the body of the try block of loadAndSetup: the state,
element and effects when the body finishes or throws, and the error that
escaped it, if any. -/
structure TryResult where
  state : ComponentState
  element : ElementState
  effects : List Effect
  thrown : Option JsError

/-- The try block of loadAndSetup (lines 262 to 280): set the loading
flag, await the load (a destroy may land while it is in flight), return
early when destroying or destroyed, otherwise run setupLibrary, then
formatNumber, then register the bound countrychange listener. -/
def loadAndSetupTry (a : Args) (env : Env) (s : ComponentState)
    (el : ElementState) : TryResult :=
  let s := { s with isLoadingIntlTelInput := true }
  match env.loadResult with
  | .error e =>
    let s := if env.destroyedDuringAwait then { s with isDestroying := true }
             else s
    { state := s, element := el, effects := [Effect.loadCalled],
      thrown := some e }
  | .ok _ =>
    let s := if env.destroyedDuringAwait then { s with isDestroying := true }
             else s
    -- Even if the above promise resolves, it might be at the end of the
    -- component lifecycle
    if s.isDestroying || s.isDestroyed then
      { state := s, element := el, effects := [Effect.loadCalled],
        thrown := none }
    else
      match setupLibrary a env s with
      | .error e =>
        { state := s, element := el, effects := [Effect.loadCalled],
          thrown := some e }
      | .ok (s, setupEffects) =>
        let (s, fmtCalls) := formatNumber a s
        let el := addEventListener el ListenerRef.boundOnCountryChange
        { state := s, element := el,
          effects := [Effect.loadCalled] ++ setupEffects
            ++ fmtCalls.map Effect.call ++ [Effect.listenerAdded],
          thrown := none }

/-- Result of a full loadAndSetup run.  The escape field is the error the
method rethrows to its caller, if any. -/
structure RunResult where
  state : ComponentState
  element : ElementState
  effects : List Effect
  escape : Option JsError

/-- The loadAndSetup method (lines 261 to 288): the try body, a catch
that forwards the error to the optional onError handler without
rethrowing, and a finally that clears the loading flag only when the
component is not destroying and not destroyed. -/
def loadAndSetup (a : Args) (env : Env) (s : ComponentState)
    (el : ElementState) : RunResult :=
  let t := loadAndSetupTry a env s el
  let effects :=
    match t.thrown with
    | some e =>
      t.effects ++ (if a.onErrorPresent then [Effect.onErrorCalled e] else [])
    | none => t.effects
  let s :=
    if !t.state.isDestroying && !t.state.isDestroyed then
      { t.state with isLoadingIntlTelInput := false }
    else t.state
  { state := s, element := t.element, effects := effects, escape := none }

/-- The onDestroy method (lines 255 to 259): destroy the plugin instance
when one exists, then remove the countrychange listener, passing the bare
onCountryChange method reference to removeEventListener. -/
def onDestroy (s : ComponentState) (el : ElementState) :
    ElementState × List Effect :=
  let destroyEffects :=
    match s.intlTelInputInstance with
    | some _ => [Effect.call PluginCall.destroy]
    | none => []
  (removeEventListener el ListenerRef.onCountryChangeMethod, destroyEffects)

/-! ### Concrete fixtures used by counterexamples and witnesses -/

/-- A plugin handle holding an invalid number. -/
def badPlugin : Plugin :=
  { storedNumber := "not a number"
    selectedCountry := "us"
    extension := ""
    selectedCountryData := { iso2 := some "us", name := "United States" }
    valid := false
    fmtNumber := fun _ => "" }

/-- A plugin handle holding a valid French number. -/
def plugin10 : Plugin :=
  { storedNumber := "0612345678"
    selectedCountry := "fr"
    extension := ""
    selectedCountryData := { iso2 := some "fr", name := "France" }
    valid := true
    fmtNumber := fun _ => "+33612345678" }

/-! ### C6: metaData with no plugin -/

/-- C6: invoked with no plugin instance, metaData returns the
empty-object-shaped metadata value, and on every input it returns an
object, never null or undefined. -/
theorem metaData_none_returns_empty_object :
    (metaData none).1 = MetaDataResult.object emptyMetaData ∧
    ∀ p : Option Plugin, ∃ m, (metaData p).1 = MetaDataResult.object m := by
  refine ⟨rfl, ?_⟩
  intro p
  cases p with
  | none => exact ⟨emptyMetaData, rfl⟩
  | some plugin => exact ⟨_, rfl⟩

/-! ### C7: numberFormat bundle exactly when valid -/

/-- C7: for every plugin instance, metaData returns an object whose
numberFormat field holds exactly the four representations E164,
INTERNATIONAL, NATIONAL and RFC3966 produced by the plugin formatter when
the plugin reports the number valid, and holds null when it reports it
invalid. -/
theorem metaData_numberFormat_four_reps_iff_valid (p : Plugin) :
    ∃ m, (metaData (some p)).1 = MetaDataResult.object m ∧
      m.numberFormat = some
        (if p.isValidNumber then
          some
            { E164 := p.getNumber NumberFormatKind.E164
              INTERNATIONAL := p.getNumber NumberFormatKind.INTERNATIONAL
              NATIONAL := p.getNumber NumberFormatKind.NATIONAL
              RFC3966 := p.getNumber NumberFormatKind.RFC3966 }
        else none) :=
  ⟨_, rfl, rfl⟩

/-! ### C1: the formatter is invoked even on invalid numbers -/

/-- C1 counterexample: a plugin reporting the number invalid still has
getNumber invoked with a format kind by metaData, refuting the claim that
the formatter is never invoked when the number is invalid. -/
theorem metaData_formatter_called_on_invalid_number :
    badPlugin.isValidNumber = false ∧
    PluginCall.getNumber NumberFormatKind.E164 ∈ (metaData (some badPlugin)).2 := by
  constructor
  · rfl
  · simp [metaData]

/-- C1 amended: for every plugin whose isValidNumber reports false, the
metaData result sets numberFormat to the null marker, but the plugin
formatter getNumber is nonetheless invoked with each of the four format
kinds; its results are merely discarded. -/
theorem metaData_invalid_numberFormat_null_formatter_still_called
    (p : Plugin) (h : p.isValidNumber = false) :
    ∃ m, (metaData (some p)).1 = MetaDataResult.object m ∧
      m.numberFormat = some none ∧
      ∀ k, PluginCall.getNumber k ∈ (metaData (some p)).2 := by
  refine ⟨_, rfl, ?_, ?_⟩
  · simp [metaData, h]
  · intro k
    cases k <;> simp [metaData]

/-- C1 amended witness at a concrete invalid plugin. -/
theorem metaData_invalid_numberFormat_null_formatter_still_called_witness :
    ∃ m, (metaData (some badPlugin)).1 = MetaDataResult.object m ∧
      m.numberFormat = some none ∧
      ∀ k, PluginCall.getNumber k ∈ (metaData (some badPlugin)).2 :=
  metaData_invalid_numberFormat_null_formatter_still_called badPlugin rfl

/-! ### C4: autoPlaceholder validation -/

/-- C4 counterexample: the empty string is not one of aggressive, off,
polite or undefined, yet construction succeeds, because the
autoPlaceholder getter coerces every falsy value to the default polite
before the assertion runs. -/
theorem empty_string_autoPlaceholder_accepted :
    JSVal.str "" ∉
      [JSVal.str "aggressive", JSVal.str "off", JSVal.str "polite",
       JSVal.undef] ∧
    ∃ s, constructorRun
      { autoPlaceholder := JSVal.str "", customPlaceholder := JSVal.undef } =
        .ok s :=
  ⟨by decide, initialState, rfl⟩

/-- C4 amended: for every configuration whose autoPlaceholder value is
truthy and not one of the strings polite, aggressive, off, widget
construction fails with a validation error; falsy values are coerced to
the default polite by the getter and accepted. -/
theorem truthy_invalid_autoPlaceholder_rejected (a : CtorArgs)
    (ht : a.autoPlaceholder.truthy = true)
    (hv : a.autoPlaceholder ∉
      [JSVal.str "polite", JSVal.str "aggressive", JSVal.str "off"]) :
    ∃ msg, constructorRun a = .error msg := by
  have hget : autoPlaceholderGet a = a.autoPlaceholder := by
    unfold autoPlaceholderGet
    rw [if_pos ht]
  have hne : a.autoPlaceholder ≠ JSVal.undef := by
    intro hcontra
    rw [hcontra] at ht
    exact absurd ht (by decide)
  have hnotmem : autoPlaceholderGet a ∉
      [JSVal.str "polite", JSVal.str "aggressive", JSVal.str "off",
       JSVal.undef] := by
    rw [hget]
    intro hmem
    simp only [List.mem_cons, List.not_mem_nil, or_false] at hmem
    rcases hmem with h | h | h | h
    · exact hv (by rw [h]; simp)
    · exact hv (by rw [h]; simp)
    · exact hv (by rw [h]; simp)
    · exact hne h
  unfold constructorRun
  by_cases h1 : (customPlaceholderGet a).truthy = true
  · rw [if_pos h1]
    by_cases h2 : ((customPlaceholderGet a).typeof == "string") = true
    · rw [if_pos h2, if_neg hnotmem]
      exact ⟨_, rfl⟩
    · rw [if_neg h2]
      exact ⟨_, rfl⟩
  · rw [if_neg h1, if_neg hnotmem]
    exact ⟨_, rfl⟩

/-- C4 amended witness: a truthy invalid autoPlaceholder string is
rejected. -/
theorem truthy_invalid_autoPlaceholder_rejected_witness :
    ∃ msg, constructorRun
      { autoPlaceholder := JSVal.str "banana",
        customPlaceholder := JSVal.undef } = .error msg :=
  truthy_invalid_autoPlaceholder_rejected
    { autoPlaceholder := JSVal.str "banana", customPlaceholder := JSVal.undef }
    (by decide) (by decide)

/-! ### C5: customPlaceholder validation -/

/-- C5 counterexample: the number 0 is defined and not a string, yet
construction succeeds, because the customPlaceholder getter coerces every
falsy value to null and the assertion only runs on truthy values. -/
theorem numeric_zero_customPlaceholder_accepted :
    JSVal.num 0 ≠ JSVal.undef ∧
    (JSVal.num 0).typeof ≠ "string" ∧
    ∃ s, constructorRun
      { autoPlaceholder := JSVal.undef, customPlaceholder := JSVal.num 0 } =
        .ok s :=
  ⟨by decide, by decide, initialState, rfl⟩

/-- C5 amended: for every configuration whose customPlaceholder value is
truthy and not a string, widget construction fails with a validation
error; falsy non-string values are coerced to null by the getter and
accepted without validation. -/
theorem truthy_nonstring_customPlaceholder_rejected (a : CtorArgs)
    (ht : a.customPlaceholder.truthy = true)
    (hv : a.customPlaceholder.typeof ≠ "string") :
    constructorRun a =
      .error "customPlaceholder must be of type string" := by
  have hget : customPlaceholderGet a = a.customPlaceholder := by
    unfold customPlaceholderGet
    rw [if_pos ht]
  unfold constructorRun
  rw [hget]
  rw [if_pos ht]
  rw [if_neg (by simpa using hv)]

/-- C5 amended witness: a numeric truthy customPlaceholder is
rejected. -/
theorem truthy_nonstring_customPlaceholder_rejected_witness :
    constructorRun
      { autoPlaceholder := JSVal.undef, customPlaceholder := JSVal.num 42 } =
        .error "customPlaceholder must be of type string" :=
  truthy_nonstring_customPlaceholder_rejected
    { autoPlaceholder := JSVal.undef, customPlaceholder := JSVal.num 42 }
    (by decide) (by decide)

/-! ### Lifecycle fixtures -/

def argsPlain : Args :=
  { number := none, country := none, initialCountry := none,
    onErrorPresent := false }

def argsErr : Args :=
  { number := none, country := none, initialCountry := none,
    onErrorPresent := true }

def argsMount : Args :=
  { number := some "0612345678", country := none, initialCountry := none,
    onErrorPresent := false }

def args10 : Args :=
  { number := some "", country := some "", initialCountry := none,
    onErrorPresent := false }

def state10 : ComponentState :=
  { initialState with intlTelInputInstance := some plugin10 }

def envMidflight : Env :=
  { loadResult := .ok (), destroyedDuringAwait := true,
    intlTelInputAvailable := true, constructResult := .ok plugin10 }

def envLoadFail : Env :=
  { loadResult := .error "boom", destroyedDuringAwait := false,
    intlTelInputAvailable := true, constructResult := .ok plugin10 }

def envOk : Env :=
  { loadResult := .ok (), destroyedDuringAwait := false,
    intlTelInputAvailable := true, constructResult := .ok plugin10 }

/-! ### C2: unmount during an in-flight load -/

/-- Helper: when the component is destroyed while the load is in flight,
the try body returns with the destroying flag set, the loading flag still
set, nothing thrown beyond the load error, and only the load effect. -/
theorem loadAndSetupTry_midflight_destroy (a : Args) (env : Env)
    (s : ComponentState) (el : ElementState)
    (h : env.destroyedDuringAwait = true) :
    (loadAndSetupTry a env s el).state.isDestroying = true ∧
    (loadAndSetupTry a env s el).state.isLoadingIntlTelInput = true ∧
    (loadAndSetupTry a env s el).effects = [Effect.loadCalled] := by
  unfold loadAndSetupTry
  cases hl : env.loadResult with
  | error e => simp [h]
  | ok u => simp [h]

/-- C2 counterexample: a concrete run destroyed while the load is in
flight finishes with the loading flag still set, refuting the claim that
unmounting during an in-flight load does not leave the loading flag set
afterward. -/
theorem loading_flag_remains_set_after_midflight_destroy :
    envMidflight.destroyedDuringAwait = true ∧
    (loadAndSetup argsPlain envMidflight initialState
      emptyElement).state.isLoadingIntlTelInput = true :=
  ⟨rfl, rfl⟩

/-- C2 amended: for every widget destroyed while the load is in flight,
once the load settles the sequence does not throw and attempts no plugin
configuration (only the load call and possibly the error forward occur),
but the loading flag remains set: the finally block skips clearing it on
a destroying or destroyed component. -/
theorem midflight_destroy_no_throw_no_plugin_config_flag_stays
    (a : Args) (env : Env) (s : ComponentState) (el : ElementState)
    (h : env.destroyedDuringAwait = true) :
    (loadAndSetup a env s el).escape = none ∧
    (loadAndSetup a env s el).state.isLoadingIntlTelInput = true ∧
    ∀ eff ∈ (loadAndSetup a env s el).effects,
      eff = Effect.loadCalled ∨ ∃ e, eff = Effect.onErrorCalled e := by
  obtain ⟨hd, hload, heff⟩ := loadAndSetupTry_midflight_destroy a env s el h
  refine ⟨rfl, ?_, ?_⟩
  · unfold loadAndSetup
    simp [hd, hload]
  · intro eff hmem
    unfold loadAndSetup at hmem
    simp only [heff] at hmem
    cases ht : (loadAndSetupTry a env s el).thrown with
    | none =>
      rw [ht] at hmem
      simp at hmem
      exact Or.inl hmem
    | some e =>
      rw [ht] at hmem
      simp at hmem
      rcases hmem with hmem | hmem
      · exact Or.inl hmem
      · rcases hmem with ⟨hpres, heq⟩
        exact Or.inr ⟨e, heq⟩

/-- C2 amended witness at a concrete mid-flight destroy. -/
theorem midflight_destroy_no_throw_no_plugin_config_flag_stays_witness :
    (loadAndSetup argsErr envMidflight initialState emptyElement).escape =
      none ∧
    (loadAndSetup argsErr envMidflight initialState
      emptyElement).state.isLoadingIntlTelInput = true ∧
    ∀ eff ∈ (loadAndSetup argsErr envMidflight initialState
      emptyElement).effects,
      eff = Effect.loadCalled ∨ ∃ e, eff = Effect.onErrorCalled e :=
  midflight_destroy_no_throw_no_plugin_config_flag_stays argsErr envMidflight
    initialState emptyElement rfl

/-! ### C8: mutation after the await is skipped once destroyed -/

/-- C8: when the load resolves after the widget has been destroyed or is
destroying, the run produces only the load effect: no plugin is
constructed, no country or number is applied, no listener is registered,
no callback is emitted, and the element and stored instance are
untouched. -/
theorem destroyed_midflight_skips_all_mutation
    (a : Args) (env : Env) (s : ComponentState) (el : ElementState)
    (hok : env.loadResult = Except.ok ())
    (hd : env.destroyedDuringAwait = true ∨ s.isDestroying = true ∨
      s.isDestroyed = true) :
    (loadAndSetup a env s el).effects = [Effect.loadCalled] ∧
    (loadAndSetup a env s el).state.intlTelInputInstance =
      s.intlTelInputInstance ∧
    (loadAndSetup a env s el).element = el := by
  unfold loadAndSetup loadAndSetupTry
  rw [hok]
  rcases hd with h | h | h <;>
    cases hdda : env.destroyedDuringAwait <;>
      simp_all

/-- C8 witness at a concrete mid-flight destroy. -/
theorem destroyed_midflight_skips_all_mutation_witness :
    (loadAndSetup argsPlain envMidflight initialState emptyElement).effects =
      [Effect.loadCalled] ∧
    (loadAndSetup argsPlain envMidflight initialState
      emptyElement).state.intlTelInputInstance =
        initialState.intlTelInputInstance ∧
    (loadAndSetup argsPlain envMidflight initialState emptyElement).element =
      emptyElement :=
  destroyed_midflight_skips_all_mutation argsPlain envMidflight initialState
    emptyElement rfl (Or.inl rfl)

/-! ### C9: load and construction errors are caught and forwarded -/

/-- Recognizer for the error-forwarding effect. -/
def isOnErrorEffect : Effect → Bool
  | .onErrorCalled _ => true
  | _ => false

/-- Helper: a successful setupLibrary run emits no error-forwarding
effect. -/
theorem setupLibrary_no_onError (a : Args) (env : Env) (s : ComponentState)
    (s2 : ComponentState) (effs : List Effect)
    (h : setupLibrary a env s = .ok (s2, effs)) :
    ∀ eff ∈ effs, isOnErrorEffect eff = false := by
  unfold setupLibrary at h
  cases hav : env.intlTelInputAvailable with
  | false =>
    rw [hav] at h
    simp only [Bool.not_false, if_pos] at h
    injection h with h
    injection h with h1 h2
    subst h2
    intro eff hmem
    exact absurd hmem (List.not_mem_nil _)
  | true =>
    rw [hav] at h
    simp only [Bool.not_true, Bool.false_eq_true, if_false] at h
    cases hc : env.constructResult with
    | error e => rw [hc] at h; cases h
    | ok plugin0 =>
      rw [hc] at h
      simp only [Except.ok.injEq, Prod.mk.injEq] at h
      obtain ⟨-, heffs⟩ := h
      subst heffs
      intro eff hmem
      simp only [List.mem_append, List.mem_map, List.mem_cons,
        List.not_mem_nil, or_false] at hmem
      rcases hmem with ((((heq | ⟨c, -, heq⟩) | ⟨c, -, heq⟩) | ⟨c, -, heq⟩) |
        heq) <;>
        subst heq <;> rfl


/-- Helper: the try body of loadAndSetup emits no error-forwarding
effect; only the catch clause does. -/
theorem loadAndSetupTry_no_onError (a : Args) (env : Env)
    (s : ComponentState) (el : ElementState) :
    ∀ eff ∈ (loadAndSetupTry a env s el).effects,
      isOnErrorEffect eff = false := by
  intro eff hmem
  unfold loadAndSetupTry at hmem
  cases hl : env.loadResult with
  | error e =>
    rw [hl] at hmem
    simp at hmem
    subst hmem
    rfl
  | ok u =>
    rw [hl] at hmem
    cases hdda : env.destroyedDuringAwait with
    | true =>
      rw [hdda] at hmem
      simp at hmem
      subst hmem
      rfl
    | false =>
      rw [hdda] at hmem
      simp only [Bool.false_eq_true, if_false] at hmem
      by_cases hd :
          (({ s with isLoadingIntlTelInput := true } :
              ComponentState).isDestroying ||
            ({ s with isLoadingIntlTelInput := true } :
              ComponentState).isDestroyed) = true
      · rw [if_pos hd] at hmem
        simp at hmem
        subst hmem
        rfl
      · rw [if_neg hd] at hmem
        cases hs : setupLibrary a env { s with isLoadingIntlTelInput := true }
          with
        | error e =>
          rw [hs] at hmem
          simp at hmem
          subst hmem
          rfl
        | ok pr =>
          obtain ⟨s3, effs3⟩ := pr
          rw [hs] at hmem
          dsimp only at hmem
          simp only [List.mem_append, List.mem_map, List.mem_cons,
            List.not_mem_nil, or_false] at hmem
          rcases hmem with ((heq | hin) | ⟨c, -, heq⟩) | heq
          · subst heq
            rfl
          · exact setupLibrary_no_onError a env _ s3 effs3 hs eff hin
          · subst heq
            rfl
          · subst heq
            rfl

/-- Helper: the effects of a full loadAndSetup run are the try-body
effects followed by the catch-clause forward, if any. -/
theorem loadAndSetup_effects_eq (a : Args) (env : Env) (s : ComponentState)
    (el : ElementState) :
    (loadAndSetup a env s el).effects =
      (loadAndSetupTry a env s el).effects ++
        (match (loadAndSetupTry a env s el).thrown with
         | some e =>
           if a.onErrorPresent then [Effect.onErrorCalled e] else []
         | none => []) := by
  unfold loadAndSetup
  cases ht : (loadAndSetupTry a env s el).thrown <;> simp [ht]

/-- C9: loadAndSetup never rethrows; the error-forwarding callback fires
at most once per run, exactly once when the try body threw and a handler
was supplied (and with that error), and never when nothing was thrown. -/
theorem load_errors_caught_and_forwarded_once (a : Args) (env : Env)
    (s : ComponentState) (el : ElementState) :
    (loadAndSetup a env s el).escape = none ∧
    (loadAndSetup a env s el).effects.countP isOnErrorEffect ≤ 1 ∧
    (∀ e, (loadAndSetupTry a env s el).thrown = some e →
      a.onErrorPresent = true →
        Effect.onErrorCalled e ∈ (loadAndSetup a env s el).effects ∧
        (loadAndSetup a env s el).effects.countP isOnErrorEffect = 1) ∧
    ((loadAndSetupTry a env s el).thrown = none →
      (loadAndSetup a env s el).effects.countP isOnErrorEffect = 0) := by
  have h0 : (loadAndSetupTry a env s el).effects.countP isOnErrorEffect = 0 := by
    rw [List.countP_eq_zero]
    intro eff hm
    simp [loadAndSetupTry_no_onError a env s el eff hm]
  have heq := loadAndSetup_effects_eq a env s el
  refine ⟨rfl, ?_, ?_, ?_⟩
  · rw [heq, List.countP_append, h0]
    cases ht : (loadAndSetupTry a env s el).thrown with
    | none => simp
    | some e =>
      cases hp : a.onErrorPresent <;>
        simp [List.countP_cons, isOnErrorEffect]
  · intro e ht hp
    rw [heq, ht]
    simp only [hp, if_true, reduceIte]
    constructor
    · simp
    · rw [List.countP_append, h0]
      simp [List.countP_cons, isOnErrorEffect]
  · intro ht
    rw [heq, ht]
    simp [h0]

/-- C9 witness: a concrete failing load with a supplied handler forwards
the error exactly once and nothing escapes. -/
theorem load_errors_caught_and_forwarded_once_witness :
    (loadAndSetup argsErr envLoadFail initialState emptyElement).escape =
      none ∧
    Effect.onErrorCalled "boom" ∈
      (loadAndSetup argsErr envLoadFail initialState emptyElement).effects ∧
    (loadAndSetup argsErr envLoadFail initialState
      emptyElement).effects.countP isOnErrorEffect = 1 := by
  obtain ⟨h1, -, h3, -⟩ :=
    load_errors_caught_and_forwarded_once argsErr envLoadFail initialState
      emptyElement
  obtain ⟨hmem, hcount⟩ := h3 "boom" rfl rfl
  exact ⟨h1, hmem, hcount⟩

/-! ### C10: formatNumber never clears a number or country -/

/-- Helper: the number getter never yields the empty string. -/
theorem numberGet_some_ne_empty (a : Args) (n : String)
    (h : numberGet a = some n) : n ≠ "" := by
  unfold numberGet at h
  cases ha : a.number with
  | none =>
    rw [ha] at h
    cases h
  | some s =>
    rw [ha] at h
    dsimp only at h
    by_cases hs : (s == "") = true
    · rw [if_pos hs] at h
      cases h
    · rw [if_neg hs] at h
      injection h with h
      subst h
      intro hc
      exact hs (by rw [hc]; rfl)

/-- C10: when a plugin instance exists, formatNumber leaves the stored
number unchanged if the configured number is null or empty, leaves the
selected country unchanged if the configured country is empty, and only
ever calls setNumber with the non-empty configured number, so a
previously set number can never be cleared through a configuration
update. -/
theorem formatNumber_skips_empty_number_and_country (a : Args)
    (s : ComponentState) (p : Plugin)
    (hp : s.intlTelInputInstance = some p) :
    ∃ q, ((formatNumber a s).1).intlTelInputInstance = some q ∧
      (numberGet a = none → q.storedNumber = p.storedNumber) ∧
      (countryGet a = "" → q.selectedCountry = p.selectedCountry) ∧
      ∀ n, PluginCall.setNumber n ∈ (formatNumber a s).2 →
        numberGet a = some n ∧ n ≠ "" := by
  cases hn : numberGet a with
  | none =>
    by_cases hc : (countryGet a != "") = true
    · have hform : formatNumber a s =
          ({ s with intlTelInputInstance := some (p.setCountry (countryGet a)) },
           [PluginCall.setCountry (countryGet a)]) := by
        simp only [formatNumber, hp, hn, hc, if_true]
      rw [hform]
      refine ⟨_, rfl, ?_, ?_, ?_⟩
      · intro _
        rfl
      · intro hcountry
        rw [hcountry] at hc
        exact absurd hc (by decide)
      · intro n hmemn
        simp at hmemn
    · simp only [Bool.not_eq_true] at hc
      have hform : formatNumber a s = (s, []) := by
        simp only [formatNumber, hp, hn, hc, Bool.false_eq_true, if_false]
        rw [← hp]
      rw [hform]
      refine ⟨p, hp, ?_, ?_, ?_⟩
      · intro _
        rfl
      · intro _
        rfl
      · intro n hmemn
        simp at hmemn
  | some m =>
    by_cases hc : (countryGet a != "") = true
    · have hform : formatNumber a s =
          ({ s with intlTelInputInstance := some ((p.setCountry (countryGet a)).setNumber m) },
           [PluginCall.setCountry (countryGet a),
            PluginCall.setNumber m]) := by
        simp only [formatNumber, hp, hn, hc, if_true]
        rfl
      rw [hform]
      refine ⟨_, rfl, ?_, ?_, ?_⟩
      · intro hnone
        exact absurd hnone (by simp)
      · intro hcountry
        rw [hcountry] at hc
        exact absurd hc (by decide)
      · intro n hmemn
        simp at hmemn
        subst hmemn
        exact ⟨rfl, numberGet_some_ne_empty a n hn⟩
    · simp only [Bool.not_eq_true] at hc
      have hform : formatNumber a s =
          ({ s with intlTelInputInstance := some (p.setNumber m) },
           [PluginCall.setNumber m]) := by
        simp only [formatNumber, hp, hn, hc, Bool.false_eq_true, if_false]
        rfl
      rw [hform]
      refine ⟨_, rfl, ?_, ?_, ?_⟩
      · intro hnone
        exact absurd hnone (by simp)
      · intro _
        rfl
      · intro n hmemn
        simp at hmemn
        subst hmemn
        exact ⟨rfl, numberGet_some_ne_empty a n hn⟩

/-- C10 witness: a configuration update carrying an empty number and an
empty country leaves the stored number and selected country of the
existing plugin untouched. -/
theorem formatNumber_skips_empty_number_and_country_witness :
    ∃ q, ((formatNumber args10 state10).1).intlTelInputInstance = some q ∧
      q.storedNumber = "0612345678" ∧ q.selectedCountry = "fr" := by
  obtain ⟨q, h1, h2, h3, -⟩ :=
    formatNumber_skips_empty_number_and_country args10 state10 plugin10 rfl
  exact ⟨q, h1, (h2 rfl).trans rfl, (h3 rfl).trans rfl⟩

/-! ### C3: onDestroy and the countrychange listener -/

/-- C3 (code bug): after a concrete successful mount the element holds
the bound countrychange listener; onDestroy calls destroy on the plugin
and removeEventListener with the bare method reference, which does not
match the bound function, so the listener registered by mount survives
onDestroy; onDestroy is nonetheless safe to run when mount never
completed. -/
theorem countrychange_listener_survives_onDestroy :
    (loadAndSetup argsMount envOk initialState
      emptyElement).element.listeners = [ListenerRef.boundOnCountryChange] ∧
    (onDestroy (loadAndSetup argsMount envOk initialState emptyElement).state
      (loadAndSetup argsMount envOk initialState
        emptyElement).element).1.listeners =
          [ListenerRef.boundOnCountryChange] ∧
    Effect.call PluginCall.destroy ∈
      (onDestroy (loadAndSetup argsMount envOk initialState
        emptyElement).state
        (loadAndSetup argsMount envOk initialState emptyElement).element).2 ∧
    (onDestroy initialState emptyElement).1.listeners = [] ∧
    (onDestroy initialState emptyElement).2 = [] := by
  refine ⟨rfl, rfl, ?_, rfl, rfl⟩
  show Effect.call PluginCall.destroy ∈ [Effect.call PluginCall.destroy]
  exact List.mem_singleton.mpr rfl

/-- C6 witness: the empty-object contract evaluated at the none input and
at a concrete plugin. -/
theorem metaData_none_returns_empty_object_witness :
    (metaData none).1 = MetaDataResult.object emptyMetaData ∧
    ∃ m, (metaData (some plugin10)).1 = MetaDataResult.object m :=
  ⟨metaData_none_returns_empty_object.1,
   metaData_none_returns_empty_object.2 (some plugin10)⟩

/-- C7 witness: at a concrete valid plugin the numberFormat bundle holds
the four formatted representations. -/
theorem metaData_numberFormat_four_reps_iff_valid_witness :
    ∃ m, (metaData (some plugin10)).1 = MetaDataResult.object m ∧
      m.numberFormat = some (some
        { E164 := "+33612345678"
          INTERNATIONAL := "+33612345678"
          NATIONAL := "+33612345678"
          RFC3966 := "+33612345678" }) := by
  obtain ⟨m, h1, h2⟩ := metaData_numberFormat_four_reps_iff_valid plugin10
  exact ⟨m, h1, h2.trans rfl⟩
